import Mathlib

/-!
Shallow embedding of the irrigation-demand computation engine of the
Gatsibo Smart Irrigation dashboard (`src/app.py`): crop/soil coefficient
tables, the Weekly Demand Calculator (`compute_weekly_irrigation`), the
Uncertainty Estimator (`uncertainty_band_weekly`) and the Event Splitter
(`split_irrigation`).  Python floats are modelled by exact rationals;
the Python builtin `round(x, 2)` is modelled as rounding to the nearest multiple of
1/100 with ties to even.
-/

namespace Gatsibo

/-- One row of the forecast dataframe.  The demand logic only reads the
`rainfall_mm` and `et0_mm` columns (`date` and `temp_max` are carried for
display only and are omitted). -/
structure Day where
  rainfall_mm : ℚ
  et0_mm : ℚ
deriving Repr, DecidableEq

/-- A forecast series: the ordered rows of the forecast dataframe. -/
abbrev Series := List Day

/-- Table `CROP_KC` from app.py: crop name -> (kc_min, kc_mid, kc_max),
with the lookup semantics of `dict.get(crop, CROP_KC["Custom"])` (an
unknown crop falls back to the "Custom" triple). -/
def CROP_KC (crop : String) : ℚ × ℚ × ℚ :=
  if crop = "Maize" then (3/10, 21/20, 6/5)
  else if crop = "Rice" then (7/10, 21/20, 23/20)
  else if crop = "Vegetables" then (2/5, 1, 23/20)
  else if crop = "Beans" then (7/20, 9/10, 21/20)
  else if crop = "Pasture" then (1/2, 1, 6/5)
  else (2/5, 1, 6/5)

/-- Function `kc_from_stage(crop, stage)`: stage "Initial" selects kc_min,
"Mid" selects kc_mid, anything else kc_max. -/
def kc_from_stage (crop stage : String) : ℚ :=
  let t := CROP_KC crop
  if stage = "Initial" then t.1
  else if stage = "Mid" then t.2.1
  else t.2.2

/-- Table `SOIL_EFFECTIVE_RAIN` from app.py (partial: the lookup with
default 0.6 is applied at the use site in `effective_rainfall`). -/
def SOIL_EFFECTIVE_RAIN (soil : String) : Option ℚ :=
  if soil = "Sandy" then some (9/10)
  else if soil = "Loam" then some (3/5)
  else if soil = "Clay" then some (2/5)
  else none

/-- Function `effective_rainfall(p_raw_mm, soil_type)`:
`p_raw_mm * SOIL_EFFECTIVE_RAIN.get(soil_type, 0.6)`. -/
def effective_rainfall (p_raw_mm : ℚ) (soil_type : String) : ℚ :=
  p_raw_mm * ((SOIL_EFFECTIVE_RAIN soil_type).getD (3/5))

/-- Per-day augmented row produced by the Weekly Demand Calculator
(daily ETc and effective-rain columns added to the dataframe). -/
structure DayCalc where
  rainfall_mm : ℚ
  et0_mm : ℚ
  Kc : ℚ
  ETc_mm : ℚ
  eff_rain_mm : ℚ
deriving Repr, DecidableEq

/-- The weekly summary dict returned by `compute_weekly_irrigation`. -/
structure WeeklyDemand where
  daily : List DayCalc
  weekly_ETc_mm : ℚ
  weekly_eff_rain_mm : ℚ
  weekly_net_mm : ℚ
  weekly_gross_mm : ℚ
  kc_used : ℚ
deriving Repr, DecidableEq

/-- Function `compute_weekly_irrigation(forecast_df, crop, stage, soil_type, efficiency)`:
daily `ETc = et0 * Kc`, daily `eff_rain = effective_rainfall(rainfall, soil)`,
weekly sums, `net = max(0, ETc - eff_rain)`, `gross = net / max(0.05, efficiency)`. -/
def compute_weekly_irrigation (forecast_df : Series) (crop stage soil_type : String)
    (efficiency : ℚ) : WeeklyDemand :=
  let kc := kc_from_stage crop stage
  let daily := forecast_df.map (fun d =>
    { rainfall_mm := d.rainfall_mm
      et0_mm := d.et0_mm
      Kc := kc
      ETc_mm := d.et0_mm * kc
      eff_rain_mm := effective_rainfall d.rainfall_mm soil_type })
  let weekly_ETc := (daily.map DayCalc.ETc_mm).sum
  let weekly_eff_rain := (daily.map DayCalc.eff_rain_mm).sum
  let net_need := max 0 (weekly_ETc - weekly_eff_rain)
  let gross_need := net_need / max (1/20) efficiency
  { daily := daily
    weekly_ETc_mm := weekly_ETc
    weekly_eff_rain_mm := weekly_eff_rain
    weekly_net_mm := net_need
    weekly_gross_mm := gross_need
    kc_used := kc }

/-- Model of the Python builtin `round(x, 2)` over ℚ: round to the nearest
integer multiple of 1/100, ties to the even multiple (bankers rounding). -/
def round2 (x : ℚ) : ℚ :=
  let y := x * 100
  let n : ℤ := ⌊y⌋
  let m : ℤ :=
    if y - n < 1/2 then n
    else if 1/2 < y - n then n + 1
    else if n % 2 = 0 then n else n + 1
  (m : ℚ) / 100

/-- The `total_mm` argument of `split_irrigation` as the Python code sees
it: `None`, a value `float()` rejects, or a number. -/
inductive NumInput where
  | none
  | invalid
  | val (q : ℚ)
deriving Repr, DecidableEq

/-- One irrigation event dict from `split_irrigation`:
`{"event": i+1, "depth_mm": ..., "volume_m3": ..., "duration_hr": ...}`. -/
structure Event where
  event : ℕ
  depth_mm : ℚ
  volume_m3 : ℚ
  duration_hr : Option ℚ
deriving Repr, DecidableEq

/-- Function `split_irrigation(total_mm, area_ha, n_splits, dmax_event_mm, pump_rate_m3h)`.
Defensive guards return `[]` for a missing/unparsable/non-positive total or a
non-positive split count; a missing or non-positive `dmax_event_mm` is replaced
by 25; `n = min(max(1, ceil(total/dmax)), max(1, n_splits))`; each event gets
depth `total/n` (reported rounded to 2 decimals), volume from the floored area,
and a duration only when a strictly positive pump rate is supplied (in Python,
`if pump_rate_m3h and pump_rate_m3h > 0`: `0.0` and `None` are falsy). -/
def split_irrigation (total_mm : NumInput) (area_ha : ℚ) (n_splits : ℤ)
    (dmax_event_mm : Option ℚ) (pump_rate_m3h : Option ℚ) : List Event :=
  match total_mm with
  | .none => []
  | .invalid => []
  | .val t =>
    if t ≤ 0 ∨ n_splits ≤ 0 then []
    else
      let d : ℚ := match dmax_event_mm with
        | Option.none => 25
        | Option.some d0 => if d0 ≤ 0 then 25 else d0
      let n_min : ℤ := if 0 < d then ⌈t / d⌉ else 1
      let n : ℤ := min (max 1 n_min) (max 1 n_splits)
      let per_event_mm : ℚ := t / n
      let area_m2 : ℚ := max (1/10000) area_ha * 10000
      let per_event_m3 : ℚ := per_event_mm / 1000 * area_m2
      (List.range n.toNat).map (fun i =>
        { event := i + 1
          depth_mm := round2 per_event_mm
          volume_m3 := round2 per_event_m3
          duration_hr := match pump_rate_m3h with
            | Option.some p => if 0 < p then some (round2 (per_event_m3 / p)) else none
            | Option.none => none })

/-- Result dict of `uncertainty_band_weekly`. -/
structure Band where
  low_mm : ℚ
  med_mm : ℚ
  high_mm : ℚ
deriving Repr, DecidableEq

/-- The low-scenario perturbation of one row: rainfall ×1.2, et0 ×0.9. -/
def perturb_low (d : Day) : Day :=
  { rainfall_mm := d.rainfall_mm * (6/5), et0_mm := d.et0_mm * (9/10) }

/-- The high-scenario perturbation of one row: rainfall ×0.8, et0 ×1.1. -/
def perturb_high (d : Day) : Day :=
  { rainfall_mm := d.rainfall_mm * (4/5), et0_mm := d.et0_mm * (11/10) }

/-- Function `uncertainty_band_weekly(forecast_df, crop, stage, soil_type, efficiency)`:
the `weekly_gross_mm` of the unperturbed series (med) and of the two
perturbed copies (low: more rain, less ET0; high: less rain, more ET0). -/
def uncertainty_band_weekly (forecast_df : Series) (crop stage soil_type : String)
    (efficiency : ℚ) : Band :=
  let med := (compute_weekly_irrigation forecast_df crop stage soil_type
    efficiency).weekly_gross_mm
  let low := (compute_weekly_irrigation (forecast_df.map perturb_low) crop stage
    soil_type efficiency).weekly_gross_mm
  let high := (compute_weekly_irrigation (forecast_df.map perturb_high) crop stage
    soil_type efficiency).weekly_gross_mm
  { low_mm := low, med_mm := med, high_mm := high }

/-! ### Reference/heap model of the dataframe operations

Pandas dataframes are mutable objects reached through references:
`df.copy()` allocates an independent object, while a column assignment
`df[c] = ...` writes through the reference into the object it names.  To
state the frame property of `uncertainty_band_weekly` we model a store of
dataframes and re-play the statements of the function against it. -/

/-- A store of dataframe objects; a reference is an index into it. -/
abbrev Store := List Series

/-- Dereference: read the dataframe a reference names. -/
def hget (st : Store) (r : ℕ) : Series := st.getD r []

/-- Copying (pandas `.copy()`): allocate a fresh cell holding the same
rows, return its reference and the grown store. -/
def hcopy (st : Store) (r : ℕ) : ℕ × Store := (st.length, st ++ [hget st r])

/-- Column assignment `df["rainfall_mm"] = f(df["rainfall_mm"])`: write
through reference `r`. -/
def hsetRain (st : Store) (r : ℕ) (f : ℚ → ℚ) : Store :=
  st.set r ((hget st r).map (fun d => { d with rainfall_mm := f d.rainfall_mm }))

/-- Column assignment `df["et0_mm"] = f(df["et0_mm"])`: write through
reference `r`. -/
def hsetEt0 (st : Store) (r : ℕ) (f : ℚ → ℚ) : Store :=
  st.set r ((hget st r).map (fun d => { d with et0_mm := f d.et0_mm }))

/-- The body of `uncertainty_band_weekly` re-played statement by statement
against the store, with the callers `forecast_df` in cell 0.  Returns the
band together with the final store, so that mutation of the input series
(or sharing between the three scenario objects) would be observable. -/
def uncertainty_band_weekly_heap (forecast_df : Series) (crop stage soil_type : String)
    (efficiency : ℚ) : Band × Store :=
  let st0 : Store := [forecast_df]
  let c1 := hcopy st0 0
  let df := c1.1
  let st1 := c1.2
  let med := (compute_weekly_irrigation (hget st1 df) crop stage soil_type
    efficiency).weekly_gross_mm
  let c2 := hcopy st1 df
  let df_low := c2.1
  let st2 := c2.2
  let st3 := hsetRain st2 df_low (fun r => r * (6/5))
  let st4 := hsetEt0 st3 df_low (fun e => e * (9/10))
  let low := (compute_weekly_irrigation (hget st4 df_low) crop stage soil_type
    efficiency).weekly_gross_mm
  let c3 := hcopy st4 df
  let df_high := c3.1
  let st5 := c3.2
  let st6 := hsetRain st5 df_high (fun r => r * (4/5))
  let st7 := hsetEt0 st6 df_high (fun e => e * (11/10))
  let high := (compute_weekly_irrigation (hget st7 df_high) crop stage soil_type
    efficiency).weekly_gross_mm
  ({ low_mm := low, med_mm := med, high_mm := high }, st7)

/-! ### Helper lemmas -/

/-- Every crop/stage coefficient in the table is strictly positive. -/
lemma kc_from_stage_pos (crop stage : String) : 0 < kc_from_stage crop stage := by
  unfold kc_from_stage CROP_KC
  split_ifs <;> norm_num

/-- The effective-rainfall fraction (including the 0.6 default) is nonnegative. -/
lemma soil_frac_nonneg (soil : String) : 0 ≤ (SOIL_EFFECTIVE_RAIN soil).getD (3/5) := by
  unfold SOIL_EFFECTIVE_RAIN
  split_ifs <;> norm_num

/-- Difference of mapped sums is the sum of mapped differences. -/
lemma sum_map_sub (l : List Day) (f g : Day → ℚ) :
    (l.map f).sum - (l.map g).sum = (l.map (fun d => f d - g d)).sum := by
  induction l with
  | nil => simp
  | cons hd tl ih => simp only [List.map_cons, List.sum_cons]; rw [← ih]; ring

/-- The rounding error of `round2` is at most half of the last kept digit. -/
lemma round2_sub_abs_le (x : ℚ) : |round2 x - x| ≤ 1 / 200 := by
  unfold round2
  dsimp only
  have h1 : (⌊x * 100⌋ : ℚ) ≤ x * 100 := Int.floor_le _
  have h2 : x * 100 < ⌊x * 100⌋ + 1 := Int.lt_floor_add_one _
  split_ifs with hA hB hC <;>
    (rw [abs_le]; constructor <;> [push_cast; push_cast] <;> nlinarith)

/-- Rounding with `round2` always returns an integer number of hundredths. -/
lemma round2_eq_int_div (x : ℚ) : ∃ z : ℤ, round2 x = z / 100 := by
  unfold round2
  dsimp only
  split_ifs <;> exact ⟨_, rfl⟩

/-- Evaluation: the mid-stage Kc of "Vegetables" is 1. -/
lemma kc_VegMid : kc_from_stage "Vegetables" "Mid" = 1 := by
  have h1 : ("Vegetables" : String) ≠ "Maize" := by decide
  have h2 : ("Vegetables" : String) ≠ "Rice" := by decide
  have h3 : ("Mid" : String) ≠ "Initial" := by decide
  simp [kc_from_stage, CROP_KC, h1, h2, h3]

/-- Evaluation: the "Loam" effective-rainfall fraction is 0.6. -/
lemma eff_rain_Loam (p : ℚ) : effective_rainfall p "Loam" = p * (3/5) := by
  have h1 : ("Loam" : String) ≠ "Sandy" := by decide
  simp [effective_rainfall, SOIL_EFFECTIVE_RAIN, h1]

/-- The gross requirement is the net one over the floored efficiency. -/
lemma weekly_gross_eq (s : Series) (crop stage soil : String) (eff : ℚ) :
    (compute_weekly_irrigation s crop stage soil eff).weekly_gross_mm =
      (compute_weekly_irrigation s crop stage soil eff).weekly_net_mm / max (1/20) eff := rfl

/-- The net requirement is the floored difference of the weekly sums. -/
lemma weekly_net_eq (s : Series) (crop stage soil : String) (eff : ℚ) :
    (compute_weekly_irrigation s crop stage soil eff).weekly_net_mm =
      max 0 ((compute_weekly_irrigation s crop stage soil eff).weekly_ETc_mm -
        (compute_weekly_irrigation s crop stage soil eff).weekly_eff_rain_mm) := rfl

/-- The weekly ETc sum, written directly over the input series. -/
lemma weekly_ETc_eq (s : Series) (crop stage soil : String) (eff : ℚ) :
    (compute_weekly_irrigation s crop stage soil eff).weekly_ETc_mm =
      (s.map (fun d => d.et0_mm * kc_from_stage crop stage)).sum := by
  simp [compute_weekly_irrigation, List.map_map, Function.comp_def]

/-- The weekly effective-rain sum, written directly over the input series. -/
lemma weekly_eff_rain_eq (s : Series) (crop stage soil : String) (eff : ℚ) :
    (compute_weekly_irrigation s crop stage soil eff).weekly_eff_rain_mm =
      (s.map (fun d => effective_rainfall d.rainfall_mm soil)).sum := by
  simp [compute_weekly_irrigation, List.map_map, Function.comp_def]

/-- The net requirement is never negative, whatever the inputs. -/
lemma weekly_net_nonneg (s : Series) (crop stage soil : String) (eff : ℚ) :
    0 ≤ (compute_weekly_irrigation s crop stage soil eff).weekly_net_mm := by
  rw [weekly_net_eq]; exact le_max_left _ _

/-! ### The claims -/

/-- C5: on the series with `et0_mm = [4,4,4,4,4,4,4]` and
`rainfall_mm = [0,0,0,0,0,0,0]`, with a crop whose mid-stage Kc is 1.0
("Vegetables"), the soil with effective-rainfall fraction 0.6 ("Loam")
and efficiency 0.8, the Weekly Demand Calculator returns
`weekly_ETc_mm = 28`, `weekly_eff_rain_mm = 0`, `weekly_net_mm = 28`
and `weekly_gross_mm = 35`. -/
theorem C5_demo_scenario :
    (compute_weekly_irrigation
        [Day.mk 0 4, Day.mk 0 4, Day.mk 0 4, Day.mk 0 4, Day.mk 0 4, Day.mk 0 4, Day.mk 0 4]
        "Vegetables" "Mid" "Loam" (4/5)).weekly_ETc_mm = 28 ∧
    (compute_weekly_irrigation
        [Day.mk 0 4, Day.mk 0 4, Day.mk 0 4, Day.mk 0 4, Day.mk 0 4, Day.mk 0 4, Day.mk 0 4]
        "Vegetables" "Mid" "Loam" (4/5)).weekly_eff_rain_mm = 0 ∧
    (compute_weekly_irrigation
        [Day.mk 0 4, Day.mk 0 4, Day.mk 0 4, Day.mk 0 4, Day.mk 0 4, Day.mk 0 4, Day.mk 0 4]
        "Vegetables" "Mid" "Loam" (4/5)).weekly_net_mm = 28 ∧
    (compute_weekly_irrigation
        [Day.mk 0 4, Day.mk 0 4, Day.mk 0 4, Day.mk 0 4, Day.mk 0 4, Day.mk 0 4, Day.mk 0 4]
        "Vegetables" "Mid" "Loam" (4/5)).weekly_gross_mm = 35 := by
  refine ⟨?_, ?_, ?_, ?_⟩ <;>
    norm_num [compute_weekly_irrigation, kc_VegMid, eff_rain_Loam]

/-- C6: for a 7-day series with non-negative rainfall and et0, the weekly
net requirement is non-negative no matter how large rainfall is relative
to ETc. -/
theorem C6_net_nonneg (s : Series) (crop stage soil : String) (eff : ℚ)
    (_hlen : s.length = 7)
    (_hnn : ∀ d ∈ s, 0 ≤ d.rainfall_mm ∧ 0 ≤ d.et0_mm) :
    0 ≤ (compute_weekly_irrigation s crop stage soil eff).weekly_net_mm :=
  weekly_net_nonneg s crop stage soil eff

/-- Witness for C6 at a concrete all-rain series. -/
theorem C6_witness :
    ([Day.mk 9 1, Day.mk 9 1, Day.mk 9 1, Day.mk 9 1, Day.mk 9 1, Day.mk 9 1,
        Day.mk 9 1] : Series).length = 7 ∧
    0 ≤ (compute_weekly_irrigation
        [Day.mk 9 1, Day.mk 9 1, Day.mk 9 1, Day.mk 9 1, Day.mk 9 1, Day.mk 9 1, Day.mk 9 1]
        "Maize" "Mid" "Loam" (4/5)).weekly_net_mm :=
  ⟨rfl, C6_net_nonneg _ "Maize" "Mid" "Loam" (4/5) rfl
    (by intro d hd; simp only [List.mem_cons, List.not_mem_nil, or_false, or_self] at hd
        subst hd; constructor <;> norm_num)⟩

/-- C1 counterexample: on a series where effective rain covers all of
ETc (rainfall 10 mm/day, et0 1 mm/day, Maize at mid stage on Loam) the
net requirement is 0, so with efficiency 0.5 — inside (0, 1] — the gross
equals the net even though the efficiency is not 1: the claimed
"equality iff efficiency = 1" fails in the ⟶ direction. -/
theorem C1_counterexample :
    (compute_weekly_irrigation
        [Day.mk 10 1, Day.mk 10 1, Day.mk 10 1, Day.mk 10 1, Day.mk 10 1, Day.mk 10 1,
          Day.mk 10 1] "Maize" "Mid" "Loam" (1/2)).weekly_gross_mm =
      (compute_weekly_irrigation
        [Day.mk 10 1, Day.mk 10 1, Day.mk 10 1, Day.mk 10 1, Day.mk 10 1, Day.mk 10 1,
          Day.mk 10 1] "Maize" "Mid" "Loam" (1/2)).weekly_net_mm ∧
    (0 < (1/2 : ℚ) ∧ (1/2 : ℚ) ≤ 1) ∧ (1/2 : ℚ) ≠ 1 := by
  have hkc : kc_from_stage "Maize" "Mid" = 21/20 := by
    have h3 : ("Mid" : String) ≠ "Initial" := by decide
    simp [kc_from_stage, CROP_KC, h3]
  refine ⟨?_, by norm_num, by norm_num⟩
  norm_num [compute_weekly_irrigation, hkc, eff_rain_Loam]

/-- C1 (amended): for efficiency in (0, 1] the gross requirement is at
least the net one, and they are equal iff the efficiency is 1 or the net
requirement is 0 (the zero-demand case is the extra disjunct the
counterexample forces). -/
theorem C1_gross_ge_net_amended (s : Series) (crop stage soil : String) (eff : ℚ)
    (h0 : 0 < eff) (h1 : eff ≤ 1) :
    (compute_weekly_irrigation s crop stage soil eff).weekly_net_mm ≤
      (compute_weekly_irrigation s crop stage soil eff).weekly_gross_mm ∧
    ((compute_weekly_irrigation s crop stage soil eff).weekly_gross_mm =
        (compute_weekly_irrigation s crop stage soil eff).weekly_net_mm ↔
      eff = 1 ∨ (compute_weekly_irrigation s crop stage soil eff).weekly_net_mm = 0) := by
  have hnet := weekly_net_nonneg s crop stage soil eff
  have hm : 0 < max (1/20 : ℚ) eff := lt_of_lt_of_le (by norm_num) (le_max_left _ _)
  have hm1 : max (1/20 : ℚ) eff ≤ 1 := max_le (by norm_num) h1
  rw [weekly_gross_eq]
  set net := (compute_weekly_irrigation s crop stage soil eff).weekly_net_mm with hdef
  constructor
  · rw [le_div_iff hm]
    nlinarith
  · constructor
    · intro h
      have h' : net = net * max (1/20 : ℚ) eff := by
        field_simp at h
        linarith [h]
      have h'' : net * (1 - max (1/20 : ℚ) eff) = 0 := by ring_nf; linarith [h']
      rcases mul_eq_zero.mp h'' with hz | hz
      · exact Or.inr hz
      · left
        have hmax : max (1/20 : ℚ) eff = 1 := by linarith
        rcases max_cases (1/20 : ℚ) eff with ⟨he, _⟩ | ⟨he, _⟩
        · rw [he] at hmax; norm_num at hmax
        · rw [he] at hmax; exact hmax
    · rintro (he | hz)
      · subst he
        rw [max_eq_right (by norm_num : (1/20 : ℚ) ≤ 1), div_one]
      · rw [hz, zero_div]

/-- Witness for the amended C1 theorem at the demo scenario. -/
theorem C1_witness :
    0 < (4/5 : ℚ) ∧ (4/5 : ℚ) ≤ 1 ∧
    (compute_weekly_irrigation
        [Day.mk 0 4, Day.mk 0 4, Day.mk 0 4, Day.mk 0 4, Day.mk 0 4, Day.mk 0 4, Day.mk 0 4]
        "Vegetables" "Mid" "Loam" (4/5)).weekly_net_mm ≤
      (compute_weekly_irrigation
        [Day.mk 0 4, Day.mk 0 4, Day.mk 0 4, Day.mk 0 4, Day.mk 0 4, Day.mk 0 4, Day.mk 0 4]
        "Vegetables" "Mid" "Loam" (4/5)).weekly_gross_mm :=
  ⟨by norm_num, by norm_num,
    (C1_gross_ge_net_amended _ "Vegetables" "Mid" "Loam" (4/5) (by norm_num)
      (by norm_num)).1⟩

/-- Monotonicity core for C2: scaling et0 down and rainfall up (and
conversely) moves the weekly gross requirement the right way. -/
lemma gross_mono_of_sums (s : Series) (crop stage soil : String) (eff : ℚ)
    (s' : Series)
    (h : (s'.map (fun d => d.et0_mm * kc_from_stage crop stage)).sum -
          (s'.map (fun d => effective_rainfall d.rainfall_mm soil)).sum ≤
        (s.map (fun d => d.et0_mm * kc_from_stage crop stage)).sum -
          (s.map (fun d => effective_rainfall d.rainfall_mm soil)).sum) :
    (compute_weekly_irrigation s' crop stage soil eff).weekly_gross_mm ≤
      (compute_weekly_irrigation s crop stage soil eff).weekly_gross_mm := by
  have hm : 0 < max (1/20 : ℚ) eff := lt_of_lt_of_le (by norm_num) (le_max_left _ _)
  rw [weekly_gross_eq, weekly_gross_eq, div_le_div_iff_of_pos_right hm,
    weekly_net_eq, weekly_net_eq, weekly_ETc_eq, weekly_ETc_eq,
    weekly_eff_rain_eq, weekly_eff_rain_eq]
  exact max_le_max le_rfl h

/-- C2: for any 7-day series with strictly positive rainfall and et0
every day, and any crop, stage, soil and efficiency, the uncertainty
band is ordered: `low_mm ≤ med_mm ≤ high_mm`. -/
theorem C2_band_ordered (s : Series) (crop stage soil : String) (eff : ℚ)
    (_hlen : s.length = 7)
    (hpos : ∀ d ∈ s, 0 < d.rainfall_mm ∧ 0 < d.et0_mm) :
    (uncertainty_band_weekly s crop stage soil eff).low_mm ≤
        (uncertainty_band_weekly s crop stage soil eff).med_mm ∧
      (uncertainty_band_weekly s crop stage soil eff).med_mm ≤
        (uncertainty_band_weekly s crop stage soil eff).high_mm := by
  have hkc := kc_from_stage_pos crop stage
  have hf := soil_frac_nonneg soil
  have hlow : ((s.map perturb_low).map (fun d => d.et0_mm * kc_from_stage crop stage)).sum -
        ((s.map perturb_low).map (fun d => effective_rainfall d.rainfall_mm soil)).sum ≤
      (s.map (fun d => d.et0_mm * kc_from_stage crop stage)).sum -
        (s.map (fun d => effective_rainfall d.rainfall_mm soil)).sum := by
    rw [List.map_map, List.map_map, sum_map_sub, sum_map_sub]
    apply List.sum_le_sum
    intro d hd
    obtain ⟨hr, he⟩ := hpos d hd
    simp only [Function.comp_def, perturb_low, effective_rainfall]
    nlinarith [mul_pos he hkc, mul_nonneg hr.le hf]
  have hhigh : (s.map (fun d => d.et0_mm * kc_from_stage crop stage)).sum -
        (s.map (fun d => effective_rainfall d.rainfall_mm soil)).sum ≤
      ((s.map perturb_high).map (fun d => d.et0_mm * kc_from_stage crop stage)).sum -
        ((s.map perturb_high).map (fun d => effective_rainfall d.rainfall_mm soil)).sum := by
    rw [List.map_map, List.map_map, sum_map_sub, sum_map_sub]
    apply List.sum_le_sum
    intro d hd
    obtain ⟨hr, he⟩ := hpos d hd
    simp only [Function.comp_def, perturb_high, effective_rainfall]
    nlinarith [mul_pos he hkc, mul_nonneg hr.le hf]
  exact ⟨gross_mono_of_sums s crop stage soil eff (s.map perturb_low) hlow,
    gross_mono_of_sums (s.map perturb_high) crop stage soil eff s hhigh⟩

/-- Witness for C2 at a concrete strictly positive series. -/
theorem C2_witness :
    ([Day.mk 1 1, Day.mk 1 1, Day.mk 1 1, Day.mk 1 1, Day.mk 1 1, Day.mk 1 1,
        Day.mk 1 1] : Series).length = 7 ∧
    (uncertainty_band_weekly
        [Day.mk 1 1, Day.mk 1 1, Day.mk 1 1, Day.mk 1 1, Day.mk 1 1, Day.mk 1 1, Day.mk 1 1]
        "Maize" "Mid" "Loam" (4/5)).low_mm ≤
      (uncertainty_band_weekly
        [Day.mk 1 1, Day.mk 1 1, Day.mk 1 1, Day.mk 1 1, Day.mk 1 1, Day.mk 1 1, Day.mk 1 1]
        "Maize" "Mid" "Loam" (4/5)).med_mm :=
  ⟨rfl, (C2_band_ordered
    [Day.mk 1 1, Day.mk 1 1, Day.mk 1 1, Day.mk 1 1, Day.mk 1 1, Day.mk 1 1, Day.mk 1 1]
    "Maize" "Mid" "Loam" (4/5) rfl
    (by intro d hd; simp only [List.mem_cons, List.not_mem_nil, or_false, or_self] at hd
        subst hd; constructor <;> norm_num)).1⟩

/-- C8: re-playing `uncertainty_band_weekly` against the store leaves
the input series (cell 0) unchanged, and the band it produces is the
one computed functionally from the original series alone — each scenario
worked on its own independent copy. -/
theorem C8_no_mutation (s : Series) (crop stage soil : String) (eff : ℚ) :
    ((uncertainty_band_weekly_heap s crop stage soil eff).2.getD 0 [] = s) ∧
    (uncertainty_band_weekly_heap s crop stage soil eff).1 =
      uncertainty_band_weekly s crop stage soil eff := by
  constructor
  · simp [uncertainty_band_weekly_heap, hcopy, hget, hsetRain, hsetEt0]
  · simp [uncertainty_band_weekly_heap, uncertainty_band_weekly, hcopy, hget,
      hsetRain, hsetEt0]
    exact ⟨rfl, rfl⟩

/-- Normalization of `dmax_event_mm` by the splitter: default 25 when
absent or non-positive. -/
def dmax_norm (dmax_event_mm : Option ℚ) : ℚ :=
  match dmax_event_mm with
  | Option.none => 25
  | Option.some d0 => if d0 ≤ 0 then 25 else d0

/-- The normalized max event depth is always strictly positive. -/
lemma dmax_norm_pos (dm : Option ℚ) : 0 < dmax_norm dm := by
  cases dm with
  | none => norm_num [dmax_norm]
  | some d0 =>
    rw [dmax_norm]
    split_ifs with h
    · norm_num
    · exact not_le.mp h

/-- The splitter behaves as if `dmax_event_mm` had been passed already
normalized. -/
lemma split_eq_norm (t area : ℚ) (ns : ℤ) (dm p : Option ℚ) :
    split_irrigation (.val t) area ns dm p =
      split_irrigation (.val t) area ns (some (dmax_norm dm)) p := by
  have hd := dmax_norm_pos dm
  cases dm with
  | none => simp [split_irrigation, dmax_norm]
  | some d0 =>
    have key : (if (if d0 ≤ 0 then (25:ℚ) else d0) ≤ 0 then (25:ℚ)
          else if d0 ≤ 0 then 25 else d0) =
        if d0 ≤ 0 then (25:ℚ) else d0 := by
      by_cases h : d0 ≤ 0
      · simp [h, (by norm_num : ¬(25:ℚ) ≤ 0)]
      · simp [h]
    simp only [split_irrigation, dmax_norm, key]

/-- Closed form of the splitter on valid inputs: `n` events built from
the equal share `t / n` with `n = min (max 1 ⌈t / d⌉) ns`. -/
lemma split_pos_eq (t area : ℚ) (ns : ℤ) (d : ℚ) (p : Option ℚ)
    (ht : 0 < t) (hns : 0 < ns) (hd : 0 < d) :
    split_irrigation (.val t) area ns (some d) p =
      (List.range (min (max 1 ⌈t / d⌉) ns).toNat).map (fun i =>
        { event := i + 1
          depth_mm := round2 (t / ((min (max 1 ⌈t / d⌉) ns : ℤ) : ℚ))
          volume_m3 := round2 (t / ((min (max 1 ⌈t / d⌉) ns : ℤ) : ℚ) / 1000 *
            (max (1/10000) area * 10000))
          duration_hr := match p with
            | Option.some pr =>
                if 0 < pr then
                  some (round2 (t / ((min (max 1 ⌈t / d⌉) ns : ℤ) : ℚ) / 1000 *
                    (max (1/10000) area * 10000) / pr))
                else Option.none
            | Option.none => Option.none }) := by
  have hns1 : max (1 : ℤ) ns = ns := max_eq_right (by omega)
  simp only [split_irrigation]
  rw [if_neg (by push_neg; exact ⟨ht, hns⟩)]
  simp only [if_neg (not_le.mpr hd), if_pos hd, hns1]

/-- The event count of the splitter on valid inputs. -/
lemma split_pos_length (t area : ℚ) (ns : ℤ) (d : ℚ) (p : Option ℚ)
    (ht : 0 < t) (hns : 0 < ns) (hd : 0 < d) :
    (split_irrigation (.val t) area ns (some d) p).length =
      (min (max 1 ⌈t / d⌉) ns).toNat := by
  rw [split_pos_eq t area ns d p ht hns hd]
  simp

/-- Evaluation rule for `round2` when the fractional part of `x * 100`
is below one half. -/
lemma round2_eq_of_lt_half (x : ℚ) (m : ℤ) (h1 : (m : ℚ) ≤ x * 100)
    (h2 : x * 100 - m < 1/2) : round2 x = m / 100 := by
  have hf : ⌊x * 100⌋ = m := Int.floor_eq_iff.mpr ⟨h1, by linarith⟩
  rw [round2]
  rw [hf, if_pos (by linarith)]

/-- C3 counterexample: at `total_mm = 10`, `max_event_depth_mm = 3`,
`n_splits = 3` the clamp gives `n = 3`, but the reported `depth_mm` is
the rounded 3.33, not the claimed equal share `10 / 3`. -/
theorem C3_counterexample :
    (split_irrigation (.val 10) 1 3 (some 3) Option.none).map Event.depth_mm =
      [333/100, 333/100, 333/100] ∧
    (min (max 1 ⌈(10:ℚ)/3⌉) 3 : ℤ) = 3 ∧
    (333/100 : ℚ) ≠ 10 / 3 := by
  have hc : ⌈(10:ℚ)/3⌉ = 4 := by norm_num [Int.ceil_eq_iff]
  have hr : round2 (10/3) = 333/100 :=
    round2_eq_of_lt_half _ 333 (by norm_num) (by norm_num)
  refine ⟨?_, by rw [hc]; decide, by norm_num⟩
  rw [split_pos_eq 10 1 3 3 Option.none (by norm_num) (by norm_num) (by norm_num), hc]
  have h1 : max (1:ℤ) 4 = 4 := by decide
  have h2 : min (4:ℤ) 3 = 3 := by decide
  rw [h1, h2]
  have h3 : List.range ((3:ℤ).toNat) = [0, 1, 2] := rfl
  rw [h3]
  simp only [List.map_cons, List.map_nil]
  norm_num [hr]

/-- C3 (amended): on valid inputs the splitter returns exactly
`n = clamp(ceil(total/dmax), 1, n_splits)` events, each with the equal
share `total / n` rounded to 2 decimals as its reported depth; the two
concrete scenarios of the claim hold exactly (60/25/3 → three events of
20.0 mm, 10/25/2 → one event of 10.0 mm). -/
theorem C3_split_count_amended :
    (∀ (t area : ℚ) (ns : ℤ) (d : ℚ) (p : Option ℚ), 0 < t → 0 < ns → 0 < d →
      (split_irrigation (.val t) area ns (some d) p).length =
          (min (max 1 ⌈t / d⌉) ns).toNat ∧
        ∀ ev ∈ split_irrigation (.val t) area ns (some d) p,
          ev.depth_mm = round2 (t / ((min (max 1 ⌈t / d⌉) ns : ℤ) : ℚ))) ∧
    (split_irrigation (.val 60) 1 3 (some 25) Option.none).map Event.depth_mm =
      [20, 20, 20] ∧
    (split_irrigation (.val 10) 1 2 (some 25) Option.none).map Event.depth_mm = [10] := by
  refine ⟨fun t area ns d p ht hns hd => ⟨split_pos_length t area ns d p ht hns hd, ?_⟩,
    ?_, ?_⟩
  · intro ev hev
    rw [split_pos_eq t area ns d p ht hns hd] at hev
    obtain ⟨i, _, rfl⟩ := List.mem_map.mp hev
    rfl
  · have hc : ⌈(60:ℚ)/25⌉ = 3 := by norm_num [Int.ceil_eq_iff]
    have hr : round2 (20 : ℚ) = 20 := by
      rw [round2_eq_of_lt_half 20 2000 (by norm_num) (by norm_num)]; norm_num
    rw [split_pos_eq 60 1 3 25 Option.none (by norm_num) (by norm_num) (by norm_num), hc]
    have h1 : max (1:ℤ) 3 = 3 := by decide
    have h2 : min (3:ℤ) 3 = 3 := by decide
    rw [h1, h2]
    have h3 : List.range ((3:ℤ).toNat) = [0, 1, 2] := rfl
    rw [h3]
    simp only [List.map_cons, List.map_nil]
    norm_num [hr]
  · have hc : ⌈(10:ℚ)/25⌉ = 1 := by norm_num [Int.ceil_eq_iff]
    have hr : round2 (10 : ℚ) = 10 := by
      rw [round2_eq_of_lt_half 10 1000 (by norm_num) (by norm_num)]; norm_num
    rw [split_pos_eq 10 1 2 25 Option.none (by norm_num) (by norm_num) (by norm_num), hc]
    have h1 : max (1:ℤ) 1 = 1 := by decide
    have h2 : min (1:ℤ) 2 = 1 := by decide
    rw [h1, h2]
    have h3 : List.range ((1:ℤ).toNat) = [0] := rfl
    rw [h3]
    simp only [List.map_cons, List.map_nil]
    norm_num [hr]

/-- Witness for the amended C3 theorem at 10/3/dmax 3. -/
theorem C3_witness :
    0 < (10:ℚ) ∧ 0 < (3:ℤ) ∧ 0 < (3:ℚ) ∧
    (split_irrigation (.val 10) 1 3 (some 3) Option.none).length =
      (min (max 1 ⌈(10:ℚ) / 3⌉) 3 : ℤ).toNat :=
  ⟨by norm_num, by norm_num, by norm_num,
    (C3_split_count_amended.1 10 1 3 3 Option.none (by norm_num) (by norm_num)
      (by norm_num)).1⟩

/-- C4: the splitter returns the empty list whenever the total is
missing, unparsable or non-positive, or the split count is non-positive
(and, being a total function into lists, no exception escapes); a
missing `max_event_depth_mm`, like a non-positive one, does not alone
empty the result — it is replaced by the default 25 and splitting
proceeds to a non-empty schedule. -/
theorem C4_splitter_guards :
    (∀ (a : ℚ) (ns : ℤ) (dm p : Option ℚ), split_irrigation .none a ns dm p = []) ∧
    (∀ (a : ℚ) (ns : ℤ) (dm p : Option ℚ), split_irrigation .invalid a ns dm p = []) ∧
    (∀ (t a : ℚ) (ns : ℤ) (dm p : Option ℚ), t ≤ 0 →
      split_irrigation (.val t) a ns dm p = []) ∧
    (∀ (t a : ℚ) (ns : ℤ) (dm p : Option ℚ), ns ≤ 0 →
      split_irrigation (.val t) a ns dm p = []) ∧
    (∀ (t a d0 : ℚ) (ns : ℤ) (p : Option ℚ), 0 < t → 0 < ns → d0 ≤ 0 →
      split_irrigation (.val t) a ns (some d0) p =
          split_irrigation (.val t) a ns (some 25) p ∧
        split_irrigation (.val t) a ns (some d0) p ≠ []) ∧
    (∀ (t a : ℚ) (ns : ℤ) (p : Option ℚ), 0 < t → 0 < ns →
      split_irrigation (.val t) a ns Option.none p =
          split_irrigation (.val t) a ns (some 25) p ∧
        split_irrigation (.val t) a ns Option.none p ≠ []) := by
  have hne : ∀ (t a : ℚ) (ns : ℤ) (p : Option ℚ), 0 < t → 0 < ns →
      split_irrigation (.val t) a ns (some 25) p ≠ [] := by
    intro t a ns p ht hns hnil
    have hlen := split_pos_length t a ns 25 p ht hns (by norm_num)
    rw [hnil] at hlen
    simp only [List.length_nil] at hlen
    omega
  have hnorm25 : dmax_norm (some 25) = 25 := by norm_num [dmax_norm]
  refine ⟨fun a ns dm p => rfl, fun a ns dm p => rfl,
    fun t a ns dm p ht => ?_, fun t a ns dm p hns => ?_,
    fun t a d0 ns p ht hns hd0 => ?_, fun t a ns p ht hns => ?_⟩
  · simp only [split_irrigation]
    rw [if_pos (Or.inl ht)]
  · simp only [split_irrigation]
    rw [if_pos (Or.inr hns)]
  · have hnorm : dmax_norm (some d0) = 25 := by simp [dmax_norm, hd0]
    have heq : split_irrigation (.val t) a ns (some d0) p =
        split_irrigation (.val t) a ns (some 25) p := by
      rw [split_eq_norm t a ns (some d0) p, split_eq_norm t a ns (some 25) p,
        hnorm, hnorm25]
    refine ⟨heq, ?_⟩
    rw [heq]
    exact hne t a ns p ht hns
  · have hnormN : dmax_norm Option.none = 25 := rfl
    have heq : split_irrigation (.val t) a ns Option.none p =
        split_irrigation (.val t) a ns (some 25) p := by
      rw [split_eq_norm t a ns Option.none p, split_eq_norm t a ns (some 25) p,
        hnormN, hnorm25]
    refine ⟨heq, ?_⟩
    rw [heq]
    exact hne t a ns p ht hns

/-- Witness for C4 at concrete guard inputs, including a missing and a
negative max event depth. -/
theorem C4_witness :
    split_irrigation .none 1 2 Option.none Option.none = [] ∧
    ((-3 : ℚ) ≤ 0 ∧ split_irrigation (.val (-3)) 1 2 Option.none Option.none = []) ∧
    (0 < (10:ℚ) ∧ 0 < (2:ℤ) ∧ (-5 : ℚ) ≤ 0 ∧
      split_irrigation (.val 10) 1 2 (some (-5)) Option.none ≠ []) ∧
    (0 < (10:ℚ) ∧ 0 < (2:ℤ) ∧
      split_irrigation (.val 10) 1 2 Option.none Option.none ≠ []) :=
  ⟨C4_splitter_guards.1 1 2 Option.none Option.none,
    ⟨by norm_num, C4_splitter_guards.2.2.1 (-3) 1 2 Option.none Option.none (by norm_num)⟩,
    ⟨by norm_num, by norm_num, by norm_num,
      (C4_splitter_guards.2.2.2.2.1 10 1 (-5) 2 Option.none (by norm_num) (by norm_num)
        (by norm_num)).2⟩,
    ⟨by norm_num, by norm_num,
      (C4_splitter_guards.2.2.2.2.2 10 1 2 Option.none (by norm_num) (by norm_num)).2⟩⟩

/-- C7 counterexample: at `total_mm = 10`, `dmax = 3`, `n_splits = 3`
the first event reports `depth_mm = 3.33` and `volume_m3 = 33.33`, but
the claimed relation `volume_m3 = depth_mm / 1000 * (max(0.0001, area_ha)
* 10000)` would give 33.3: the reported volume is rounded from the
unrounded share, not computed from the reported depth. -/
theorem C7_counterexample :
    (split_irrigation (.val 10) 1 3 (some 3) Option.none).head? =
      some (Event.mk 1 (333/100) (3333/100) Option.none) ∧
    (3333/100 : ℚ) ≠ 333/100 / 1000 * (max (1/10000) 1 * 10000) := by
  have hc : ⌈(10:ℚ)/3⌉ = 4 := by norm_num [Int.ceil_eq_iff]
  have hr1 : round2 (10/3) = 333/100 :=
    round2_eq_of_lt_half _ 333 (by norm_num) (by norm_num)
  have hr2 : round2 (100/3) = 3333/100 :=
    round2_eq_of_lt_half _ 3333 (by norm_num) (by norm_num)
  constructor
  · rw [split_pos_eq 10 1 3 3 Option.none (by norm_num) (by norm_num) (by norm_num), hc]
    have h1 : max (1:ℤ) 4 = 4 := by decide
    have h2 : min (4:ℤ) 3 = 3 := by decide
    rw [h1, h2]
    have h3 : List.range ((3:ℤ).toNat) = [0, 1, 2] := rfl
    rw [h3]
    simp only [List.map_cons, List.head?_cons]
    have hmax : max (1/10000 : ℚ) 1 = 1 := by norm_num
    norm_num [hmax, hr1, hr2]
  · norm_num

/-- C7 (amended): for every event the splitter produces — whatever the
optional `max_event_depth_mm` and pump-rate inputs — the reported
`volume_m3` is the volume of the unrounded equal share over the floored
area, rounded to 2 decimals, and `duration_hr` is the unrounded volume
over the pump rate, rounded, when a strictly positive pump rate is
supplied — and null (never 0) for a zero, negative or absent pump rate;
the concrete checks of the claim hold: area 1 ha with a 20 mm event
gives 200.0 m³, 200 m³ at 50 m³/h gives 4.0 h, and a zero or absent
pump rate gives a null duration. -/
theorem C7_volume_duration_amended :
    (∀ (t area : ℚ) (ns : ℤ) (dm p : Option ℚ) (ev : Event), 0 < t → 0 < ns →
      ev ∈ split_irrigation (.val t) area ns dm p →
      ev.volume_m3 = round2 (t / ((min (max 1 ⌈t / dmax_norm dm⌉) ns : ℤ) : ℚ) / 1000 *
          (max (1/10000) area * 10000)) ∧
        ev.duration_hr = (match p with
          | Option.some pr =>
              if 0 < pr then
                some (round2 (t / ((min (max 1 ⌈t / dmax_norm dm⌉) ns : ℤ) : ℚ) / 1000 *
                  (max (1/10000) area * 10000) / pr))
              else Option.none
          | Option.none => Option.none)) ∧
    split_irrigation (.val 20) 1 1 (some 25) (some 50) =
      [Event.mk 1 20 200 (some 4)] ∧
    split_irrigation (.val 20) 1 1 (some 25) (some 0) =
      [Event.mk 1 20 200 Option.none] ∧
    split_irrigation (.val 20) 1 1 (some 25) Option.none =
      [Event.mk 1 20 200 Option.none] := by
  refine ⟨fun t area ns dm p ev ht hns hev => ?_, ?_, ?_, ?_⟩
  · rw [split_eq_norm t area ns dm p,
      split_pos_eq t area ns (dmax_norm dm) p ht hns (dmax_norm_pos dm)] at hev
    obtain ⟨i, _, rfl⟩ := List.mem_map.mp hev
    exact ⟨rfl, rfl⟩
  · have hc : ⌈(20:ℚ)/25⌉ = 1 := by norm_num [Int.ceil_eq_iff]
    have hr1 : round2 (20 : ℚ) = 20 := by
      rw [round2_eq_of_lt_half 20 2000 (by norm_num) (by norm_num)]; norm_num
    have hr2 : round2 (200 : ℚ) = 200 := by
      rw [round2_eq_of_lt_half 200 20000 (by norm_num) (by norm_num)]; norm_num
    have hr3 : round2 (4 : ℚ) = 4 := by
      rw [round2_eq_of_lt_half 4 400 (by norm_num) (by norm_num)]; norm_num
    rw [split_pos_eq 20 1 1 25 (some 50) (by norm_num) (by norm_num) (by norm_num), hc]
    have h1 : max (1:ℤ) 1 = 1 := by decide
    have h2 : min (1:ℤ) 1 = 1 := by decide
    rw [h1, h2]
    have h3 : List.range ((1:ℤ).toNat) = [0] := rfl
    rw [h3]
    simp only [List.map_cons, List.map_nil]
    norm_num [hr1, hr2, hr3]
  · have hc : ⌈(20:ℚ)/25⌉ = 1 := by norm_num [Int.ceil_eq_iff]
    have hr1 : round2 (20 : ℚ) = 20 := by
      rw [round2_eq_of_lt_half 20 2000 (by norm_num) (by norm_num)]; norm_num
    have hr2 : round2 (200 : ℚ) = 200 := by
      rw [round2_eq_of_lt_half 200 20000 (by norm_num) (by norm_num)]; norm_num
    rw [split_pos_eq 20 1 1 25 (some 0) (by norm_num) (by norm_num) (by norm_num), hc]
    have h1 : max (1:ℤ) 1 = 1 := by decide
    have h2 : min (1:ℤ) 1 = 1 := by decide
    rw [h1, h2]
    have h3 : List.range ((1:ℤ).toNat) = [0] := rfl
    rw [h3]
    simp only [List.map_cons, List.map_nil]
    norm_num [hr1, hr2]
  · have hc : ⌈(20:ℚ)/25⌉ = 1 := by norm_num [Int.ceil_eq_iff]
    have hr1 : round2 (20 : ℚ) = 20 := by
      rw [round2_eq_of_lt_half 20 2000 (by norm_num) (by norm_num)]; norm_num
    have hr2 : round2 (200 : ℚ) = 200 := by
      rw [round2_eq_of_lt_half 200 20000 (by norm_num) (by norm_num)]; norm_num
    rw [split_pos_eq 20 1 1 25 Option.none (by norm_num) (by norm_num) (by norm_num), hc]
    have h1 : max (1:ℤ) 1 = 1 := by decide
    have h2 : min (1:ℤ) 1 = 1 := by decide
    rw [h1, h2]
    have h3 : List.range ((1:ℤ).toNat) = [0] := rfl
    rw [h3]
    simp only [List.map_cons, List.map_nil]
    norm_num [hr1, hr2]

/-- Witness for the amended C7 theorem: the 20 mm / 1 ha / 50 m³ per h
event, and the same event with both optional inputs absent, whose
duration is null. -/
theorem C7_witness :
    0 < (20:ℚ) ∧ 0 < (1:ℤ) ∧
    (Event.mk 1 20 200 (some 4)).duration_hr = (if 0 < (50:ℚ) then
      some (round2 (20 / ((min (max 1 ⌈(20:ℚ) / dmax_norm (some 25)⌉) 1 : ℤ) : ℚ) / 1000 *
        (max (1/10000) 1 * 10000) / 50))
      else Option.none) ∧
    (Event.mk 1 20 200 Option.none).duration_hr = Option.none :=
  ⟨by norm_num, by norm_num,
    (C7_volume_duration_amended.1 20 1 1 (some 25) (some 50)
      (Event.mk 1 20 200 (some 4)) (by norm_num) (by norm_num)
      (by rw [C7_volume_duration_amended.2.1]; exact List.mem_singleton.mpr rfl)).2,
    (C7_volume_duration_amended.1 20 1 1 Option.none Option.none
      (Event.mk 1 20 200 Option.none) (by norm_num) (by norm_num)
      (by
        have h20 : split_irrigation (.val 20) 1 1 Option.none Option.none =
            [Event.mk 1 20 200 Option.none] := by
          rw [split_eq_norm 20 1 1 Option.none Option.none]
          exact C7_volume_duration_amended.2.2.2
        rw [h20]
        exact List.mem_singleton.mpr rfl)).2⟩

/-- C9 counterexample: with `total_mm = 50.002`, `max_event_depth_mm = 25`
and `n_splits = 2` the cap binds (`2 < ceil(50.002/25) = 3`), and the two
events report `depth_mm = 25.0`: the reported depth neither equals the
share `total_mm / n_splits = 25.001` nor strictly exceeds the 25 mm
bound, because the report is rounded to 2 decimals. -/
theorem C9_counterexample :
    (0 : ℤ) < 2 ∧ (2 : ℤ) < ⌈(25001/500 : ℚ) / 25⌉ ∧
    (split_irrigation (.val (25001/500)) 1 2 (some 25) Option.none).map Event.depth_mm =
      [25, 25] ∧
    ¬ (25 : ℚ) > 25 ∧ (25 : ℚ) ≠ 25001/500 / 2 := by
  have hc : ⌈(25001/500 : ℚ) / 25⌉ = 3 := by norm_num [Int.ceil_eq_iff]
  have hr : round2 (25001/1000) = 25 := by
    rw [round2_eq_of_lt_half _ 2500 (by norm_num) (by norm_num)]; norm_num
  refine ⟨by norm_num, by rw [hc]; norm_num, ?_, by norm_num, by norm_num⟩
  rw [split_pos_eq (25001/500) 1 2 25 Option.none (by norm_num) (by norm_num)
    (by norm_num), hc]
  have h1 : max (1:ℤ) 3 = 3 := by decide
  have h2 : min (3:ℤ) 2 = 2 := by decide
  rw [h1, h2]
  have h3 : List.range ((2:ℤ).toNat) = [0, 1] := rfl
  rw [h3]
  simp only [List.map_cons, List.map_nil]
  norm_num [hr]

/-- C9 (amended): when the requested cap is below the minimum split count
(`0 < n_splits < ceil(total/dmax)`), the splitter returns exactly
`n_splits` events, the unrounded equal share `total_mm / n_splits`
strictly exceeds `max_event_depth_mm` (so the per-event depth bound is
not an output invariant), and each event reports that share rounded to 2
decimals; e.g. `total_mm = 60`, `dmax = 25`, `n_splits = 2` yields two
events of 30 mm. -/
theorem C9_cap_priority_amended :
    (∀ (t area : ℚ) (ns : ℤ) (d : ℚ) (p : Option ℚ), 0 < t → 0 < ns → 0 < d →
      ns < ⌈t / d⌉ →
      (split_irrigation (.val t) area ns (some d) p).length = ns.toNat ∧
        d < t / (ns : ℚ) ∧
        ∀ ev ∈ split_irrigation (.val t) area ns (some d) p,
          ev.depth_mm = round2 (t / (ns : ℚ))) ∧
    (split_irrigation (.val 60) 1 2 (some 25) Option.none).map Event.depth_mm =
      [30, 30] := by
  constructor
  · intro t area ns d p ht hns hd hcap
    have hmin : min (max 1 ⌈t / d⌉) ns = ns := by omega
    have h1 : (ns : ℚ) < t / d := Int.lt_ceil.mp hcap
    have h2 : (ns : ℚ) * d < t := (lt_div_iff hd).mp h1
    have hnsQ : (0 : ℚ) < (ns : ℚ) := by exact_mod_cast hns
    refine ⟨?_, ?_, ?_⟩
    · rw [split_pos_length t area ns d p ht hns hd, hmin]
    · rw [lt_div_iff hnsQ]
      nlinarith
    · intro ev hev
      rw [split_pos_eq t area ns d p ht hns hd] at hev
      obtain ⟨i, _, rfl⟩ := List.mem_map.mp hev
      simp only [hmin]
  · have hc : ⌈(60:ℚ)/25⌉ = 3 := by norm_num [Int.ceil_eq_iff]
    have hr : round2 (30 : ℚ) = 30 := by
      rw [round2_eq_of_lt_half 30 3000 (by norm_num) (by norm_num)]; norm_num
    rw [split_pos_eq 60 1 2 25 Option.none (by norm_num) (by norm_num) (by norm_num), hc]
    have h1 : max (1:ℤ) 3 = 3 := by decide
    have h2 : min (3:ℤ) 2 = 2 := by decide
    rw [h1, h2]
    have h3 : List.range ((2:ℤ).toNat) = [0, 1] := rfl
    rw [h3]
    simp only [List.map_cons, List.map_nil]
    norm_num [hr]

/-- Witness for the amended C9 theorem at 60/25/cap 2. -/
theorem C9_witness :
    0 < (60:ℚ) ∧ 0 < (2:ℤ) ∧ 0 < (25:ℚ) ∧ (2:ℤ) < ⌈(60:ℚ) / 25⌉ ∧
    (split_irrigation (.val 60) 1 2 (some 25) Option.none).length = (2:ℤ).toNat :=
  ⟨by norm_num, by norm_num, by norm_num,
    by rw [show ⌈(60:ℚ)/25⌉ = 3 from by norm_num [Int.ceil_eq_iff]]; norm_num,
    (C9_cap_priority_amended.1 60 1 2 25 Option.none (by norm_num) (by norm_num)
      (by norm_num)
      (by rw [show ⌈(60:ℚ)/25⌉ = 3 from by norm_num [Int.ceil_eq_iff]]; norm_num)).1⟩

/-- Sum of the reported depths of a constant-depth event list. -/
lemma sum_map_depth (k : ℕ) (f : ℕ → Event) (c : ℚ) (h : ∀ i, (f i).depth_mm = c) :
    (((List.range k).map f).map Event.depth_mm).sum = (k : ℚ) * c := by
  induction k with
  | zero => simp
  | succ k ih =>
    rw [List.range_succ]
    simp only [List.map_append, List.sum_append, List.map_cons, List.map_nil,
      List.sum_cons, List.sum_nil, ih, h k]
    push_cast
    ring

/-- C10: every reported `depth_mm` and `volume_m3` is an integer number
of hundredths (both are rounded to 2 decimals, not only `duration_hr`),
and consequently the sum of the reported event depths differs from
`total_mm` by at most `n * 0.005` where `n` is the event count. -/
theorem C10_rounded_reports (t area : ℚ) (ns : ℤ) (dm p : Option ℚ)
    (ht : 0 < t) (hns : 0 < ns) :
    (∀ ev ∈ split_irrigation (.val t) area ns dm p,
      (∃ z : ℤ, ev.depth_mm = z / 100) ∧ ∃ w : ℤ, ev.volume_m3 = w / 100) ∧
    |((split_irrigation (.val t) area ns dm p).map Event.depth_mm).sum - t| ≤
      ((split_irrigation (.val t) area ns dm p).length : ℚ) * (1/200) := by
  rw [split_eq_norm t area ns dm p]
  have hd := dmax_norm_pos dm
  rw [split_pos_eq t area ns (dmax_norm dm) p ht hns hd]
  set n : ℤ := min (max 1 ⌈t / dmax_norm dm⌉) ns with hn
  have hn1 : (1:ℤ) ≤ n := by rw [hn]; omega
  constructor
  · intro ev hev
    obtain ⟨i, _, rfl⟩ := List.mem_map.mp hev
    exact ⟨round2_eq_int_div _, round2_eq_int_div _⟩
  · rw [sum_map_depth _ _ (round2 (t / ((n:ℤ):ℚ))) (fun i => rfl)]
    simp only [List.length_map, List.length_range]
    have hcast : ((n.toNat : ℕ) : ℚ) = ((n : ℤ) : ℚ) := by
      rw [show ((n.toNat : ℕ) : ℚ) = (((n.toNat : ℕ) : ℤ) : ℚ) by push_cast; rfl,
        Int.toNat_of_nonneg (by omega)]
    rw [hcast]
    have hnQ : (0:ℚ) < ((n:ℤ):ℚ) := by exact_mod_cast (by omega : (0:ℤ) < n)
    have hsplit : ((n:ℤ):ℚ) * (t / ((n:ℤ):ℚ)) = t := mul_div_cancel₀ t hnQ.ne'
    calc |((n:ℤ):ℚ) * round2 (t / ((n:ℤ):ℚ)) - t|
        = |((n:ℤ):ℚ) * (round2 (t / ((n:ℤ):ℚ)) - t / ((n:ℤ):ℚ))| := by
          rw [mul_sub, hsplit]
      _ = ((n:ℤ):ℚ) * |round2 (t / ((n:ℤ):ℚ)) - t / ((n:ℤ):ℚ)| := by
          rw [abs_mul, abs_of_pos hnQ]
      _ ≤ ((n:ℤ):ℚ) * (1/200) :=
          mul_le_mul_of_nonneg_left (round2_sub_abs_le _) hnQ.le

/-- Witness for C10 at 10 mm split into 3 events of 3.33 mm. -/
theorem C10_witness :
    0 < (10:ℚ) ∧ 0 < (3:ℤ) ∧
    |((split_irrigation (.val 10) 1 3 (some 3) Option.none).map Event.depth_mm).sum
        - 10| ≤
      ((split_irrigation (.val 10) 1 3 (some 3) Option.none).length : ℚ) * (1/200) :=
  ⟨by norm_num, by norm_num,
    (C10_rounded_reports 10 1 3 (some 3) Option.none (by norm_num) (by norm_num)).2⟩

end Gatsibo
